import Mathlib

/-!
# Verification of the Observability-Stack detection / instrumentation core

A shallow embedding, in Lean 4, of the detection engine
(`v3/core/detector/…`) and the instrumentation engine
(`v3/core/instrumentor/…`) of the Observability-Stack repository,
followed by theorems settling the specification claims about them.

Scores are modelled as exact rationals (`ℚ`); Python dictionaries are
modelled as insertion-ordered association lists, which reproduces both
the Python dict-update semantics and its iteration order; file contents
and process listings are strings; the container-runtime boundary
(docker attrs / `exec_run`) is modelled by an explicit container record.
-/

set_option maxRecDepth 4000

namespace ObsStack

/- Scores are exact rationals.  The Batteries arithmetic on `Rat` is
shipped irreducible, which would block kernel evaluation of concrete
detection runs; restoring the default reducibility lets witnesses and
counterexamples evaluate by `decide`. -/
attribute [local semireducible] Rat.ofScientific Rat.mul Rat.inv Rat.add Rat.sub

/-! ## Basic string machinery (Python `in`, `lower`, `split`, `strip`) -/

/-- Does `needle` occur as a contiguous sublist of `hay`? -/
def listInfixOf (needle : List Char) : List Char → Bool
  | [] => needle.isEmpty
  | c :: t => needle.isPrefixOf (c :: t) || listInfixOf needle t

/-- Models the Python substring test: `strContains t s` is the source test of s in t. -/
def strContains (t s : String) : Bool :=
  listInfixOf s.toList t.toList

/-- Lowercases ASCII, matching the Python lower method on the ASCII inputs used here. -/
def strLower (s : String) : String :=
  String.mk (s.toList.map Char.toLower)

/-- Python considers these whitespace for `str.strip()`. -/
def pyIsSpace (c : Char) : Bool :=
  c = ' ' || c = '\t' || c = '\n' || c = '\r' || c = '\x0b' || c = '\x0c'

/-- Python `str.strip()`. -/
def pyStrip (s : String) : String :=
  String.mk (((s.toList.dropWhile pyIsSpace).reverse.dropWhile pyIsSpace).reverse)

/-- Python `str.lstrip()`. -/
def pyLstrip (s : String) : String :=
  String.mk (s.toList.dropWhile pyIsSpace)

/-- Splits a character list at every newline; models the Python split on newline. -/
def splitNl : List Char → List (List Char)
  | [] => [[]]
  | c :: t =>
    if c = '\n' then [] :: splitNl t
    else
      match splitNl t with
      | [] => [[c]]
      | h :: r => (c :: h) :: r

/-- Models the Python split on newline, on strings. -/
def pyLines (s : String) : List String :=
  (splitNl s.toList).map String.mk

/-- Models the Python newline join of a list of lines. -/
def joinLines : List String → String
  | [] => ""
  | [l] => l
  | l :: ls => l ++ "\n" ++ joinLines ls

/-- Python `line.strip().startswith(p)`. -/
def stripStartsWith (line p : String) : Bool :=
  p.toList.isPrefixOf (pyStrip line).toList

/-- Fuel-indexed core of `pyReplace`; the fuel is always at least the
length of the remaining text, so the `0` branch is never taken for the
nonempty patterns this development uses. -/
def replaceAllAux (pat rep : List Char) : Nat → List Char → List Char
  | 0, s => s
  | _, [] => []
  | fuel + 1, c :: t =>
    if !pat.isEmpty && pat.isPrefixOf (c :: t) then
      rep ++ replaceAllAux pat rep fuel ((c :: t).drop pat.length)
    else c :: replaceAllAux pat rep fuel t

/-- Python `s.replace(pat, rep)` for nonempty `pat`: replaces every
non-overlapping occurrence, scanning left to right. -/
def pyReplace (s pat rep : String) : String :=
  String.mk (replaceAllAux pat.toList rep.toList (s.toList.length + 1) s.toList)

/-- Count of (possibly overlapping) occurrences of `needle` in `hay`;
used only to state duplication facts about manifests. -/
def countOccur (hay needle : String) : Nat :=
  (List.range (hay.toList.length + 1)).countP
    (fun i => needle.toList.isPrefixOf (hay.toList.drop i))

/-! ## The data model (`v3/core/detector/base.py`) -/

/-- Models `Framework` enum from `detector/base.py`. -/
inductive Framework where
  | flask | django | fastapi | express | nestjs | spring_boot | unknown
  deriving DecidableEq, Repr

/-- Models `Language` enum from `detector/base.py`. -/
inductive Language where
  | python | nodejs | java | go | unknown
  deriving DecidableEq, Repr

/-- The `.value` attribute of the Python `Framework` enum members. -/
def Framework.value : Framework → String
  | .flask => "flask"
  | .django => "django"
  | .fastapi => "fastapi"
  | .express => "express"
  | .nestjs => "nestjs"
  | .spring_boot => "spring_boot"
  | .unknown => "unknown"

/-- Models `str(member)` / `f"{member}"` for the plain Python `Framework` enum:
the representation `"Framework.FLASK"` etc., NOT the `.value`. -/
def Framework.pyStr : Framework → String
  | .flask => "Framework.FLASK"
  | .django => "Framework.DJANGO"
  | .fastapi => "Framework.FASTAPI"
  | .express => "Framework.EXPRESS"
  | .nestjs => "Framework.NESTJS"
  | .spring_boot => "Framework.SPRING_BOOT"
  | .unknown => "Framework.UNKNOWN"

/-! ## Hint dictionaries

The scanners return Python dicts whose keys are either `Framework`
members or version strings such as `f"{framework}_version"`, and whose
values are either floats (scores) or strings (versions).  We model them
as insertion-ordered association lists over a heterogeneous key/value
pair, exactly mirroring dict insertion/update semantics. -/

/-- A key of a scanner hint dict: a `Framework` member or a string. -/
inductive HKey where
  | fw (f : Framework)
  | str (s : String)
  deriving DecidableEq, Repr

/-- A value of a scanner hint dict: a score (float) or a version string. -/
inductive HVal where
  | num (q : ℚ)
  | str (s : String)
  deriving DecidableEq, Repr

/-- A scanner hint dict, in insertion order. -/
abbrev Hints := List (HKey × HVal)

/-- Python `d.get(k)` on a hint dict. -/
def dictGet (d : Hints) (k : HKey) : Option HVal :=
  (d.find? (fun p => p.1 = k)).map (·.2)

/-- Python `d[k] = v`: update in place if present, else append. -/
def dictSet (d : Hints) (k : HKey) (v : HVal) : Hints :=
  if d.any (fun p => p.1 = k) then
    d.map (fun p => if p.1 = k then (k, v) else p)
  else d ++ [(k, v)]

/-- Python `hints[fw] = hints.get(fw, 0) + q` for a framework-keyed score. -/
def hintsAddNum (d : Hints) (f : Framework) (q : ℚ) : Hints :=
  let cur : ℚ := match dictGet d (.fw f) with
    | some (.num x) => x
    | _ => 0
  dictSet d (.fw f) (.num (cur + q))

/-- Python `a.update(b)` on hint dicts. -/
def dictUpdate (a b : Hints) : Hints :=
  b.foldl (fun d kv => dictSet d kv.1 kv.2) a

/-! ## Port scanner (`scanners/port_scanner.py`) -/

/-- Models `PortScanner.PORT_HINTS`. -/
def PORT_HINTS : List (Nat × Framework) :=
  [(5000, .flask), (8000, .django), (8080, .spring_boot),
   (3000, .express), (4000, .express)]

/-- Models `PortScanner.scan`: every exposed port found in `PORT_HINTS`
contributes `0.3` to that framework. -/
def portScan (ports : List Nat) : Hints :=
  ports.foldl (fun h p =>
    match PORT_HINTS.find? (fun q => q.1 = p) with
    | some (_, f) => hintsAddNum h f 0.3
    | none => h) []

/-! ## Environment analyzer (`analyzers/env_analyzer.py`) -/

/-- Models `EnvAnalyzer.ENV_HINTS`. -/
def ENV_HINTS : List (String × Framework) :=
  [("FLASK_APP", .flask), ("DJANGO_SETTINGS_MODULE", .django),
   ("FASTAPI_ENV", .fastapi), ("NODE_ENV", .express),
   ("SPRING_PROFILES_ACTIVE", .spring_boot)]

/-- Extracts the key of a KEY=value environment entry (Python split on the equals sign, first component). -/
def envKey (e : String) : String :=
  ((e.toList.takeWhile (fun c => c ≠ '=')).map id) |> String.mk

/-- Models `EnvAnalyzer.analyze`: each declared variable whose key is in
`ENV_HINTS` contributes `0.4`. -/
def envAnalyze (envVars : List String) : Hints :=
  envVars.foldl (fun h e =>
    match ENV_HINTS.find? (fun q => q.1 = envKey e) with
    | some (_, f) => hintsAddNum h f 0.4
    | none => h) []

/-! ## Process scanner (`scanners/process_scanner.py`)

The patterns in `PROCESS_PATTERNS` are of two regex shapes only: a plain
word such as `python`, or two words joined by a dot-star such as the Flask app-entry pattern.
With `re.IGNORECASE | re.MULTILINE` a plain word matches iff it occurs
as a substring (case-insensitively), and `a.*b` matches iff some line
contains `a` followed by `b` (`.` does not cross newlines). -/

/-- One process regex pattern: a literal, or `a.*b`. -/
inductive PPat where
  | plain (s : String)
  | seq (a b : String)
  deriving DecidableEq, Repr

/-- Tests whether the pattern text contains a dot-star, the Python test used for the score. -/
def PPat.hasDotStar : PPat → Bool
  | .plain _ => false
  | .seq _ _ => true

/-- The suffix of `hay` following its first occurrence of `needle`
(`none` when `needle` does not occur). -/
def suffixAfterFirst (needle : List Char) : List Char → Option (List Char)
  | [] => if needle.isEmpty then some [] else none
  | c :: t =>
    if needle.isPrefixOf (c :: t) then some ((c :: t).drop needle.length)
    else suffixAfterFirst needle t

/-- Matches a two-part pattern against a single line: `a` occurs and `b` occurs after it. -/
def seqMatchLine (a b line : List Char) : Bool :=
  match suffixAfterFirst a line with
  | some rest => listInfixOf b rest
  | none => false

/-- Models `re.search(pattern, text, re.IGNORECASE | re.MULTILINE)` for the two
pattern shapes (pattern literals are stored lowercase). -/
def ppatMatches (p : PPat) (text : String) : Bool :=
  let t := strLower text
  match p with
  | .plain s => strContains t s
  | .seq a b => (splitNl t.toList).any (fun line => seqMatchLine a.toList b.toList line)

/-- Models `ProcessScanner.PROCESS_PATTERNS`, in dict insertion order. -/
def PROCESS_PATTERNS : List (PPat × Framework × Language) :=
  [(.seq "python" "app.py", .flask, .python),
   (.seq "python" "manage.py", .django, .python),
   (.seq "python" "main.py", .fastapi, .python),
   (.plain "python", .flask, .python),
   (.plain "gunicorn", .flask, .python),
   (.plain "uvicorn", .fastapi, .python),
   (.seq "node" "app.js", .express, .nodejs),
   (.seq "node" "server.js", .express, .nodejs),
   (.plain "node", .express, .nodejs),
   (.plain "npm", .express, .nodejs),
   (.seq "java" ".jar", .spring_boot, .java),
   (.plain "java", .spring_boot, .java)]

/-- Models `ProcessScanner.scan` on the captured `ps aux` output (`none` models
a failed exec / nonzero exit code, which yields no hints).  The loop
stops at the first matching pattern, scoring `0.8` when the pattern
contains a dot-star and `0.6` otherwise. -/
def processScan : Option String → Hints
  | none => []
  | some listing =>
    match PROCESS_PATTERNS.find? (fun p => ppatMatches p.1 listing) with
    | some (p, f, _) => [(.fw f, .num (if p.hasDotStar then 0.8 else 0.6))]
    | none => []

/-! ## File analyzer (`analyzers/file_analyzer.py`) -/

/-- A container filesystem: path/content pairs, first binding wins. -/
abbrev Files := List (String × String)

/-- Models `cat path` / `test -f path`: the content when the file exists. -/
def fileGet (files : Files) (p : String) : Option String :=
  (files.find? (fun q => q.1 = p)).map (·.2)

/-- Models `sh -c "… > path"`: overwrite or create. -/
def fileSet (files : Files) (p content : String) : Files :=
  if files.any (fun q => q.1 = p) then
    files.map (fun q => if q.1 = p then (p, content) else q)
  else files ++ [(p, content)]

/-- Models `rm -f path`. -/
def fileRemove (files : Files) (p : String) : Files :=
  files.filter (fun q => q.1 ≠ p)

/-- Models `FileAnalyzer.FILE_HINTS`. -/
def FILE_HINTS : List (String × List (Framework × List String)) :=
  [("requirements.txt", [(.flask, ["flask"]), (.django, ["django"]), (.fastapi, ["fastapi"])]),
   ("package.json", [(.express, ["express"]), (.nestjs, ["@nestjs/core"])]),
   ("pom.xml", [(.spring_boot, ["spring-boot"])])]

/-- Models `FileAnalyzer.analyze`: each pattern found (case-insensitively) in an
content of an existing file contributes `0.6`. -/
def fileAnalyze (files : Files) : Hints :=
  FILE_HINTS.foldl (fun h fp =>
    match fileGet files fp.1 with
    | some content =>
      fp.2.foldl (fun h fwpats =>
        fwpats.2.foldl (fun h pat =>
          if strContains (strLower content) (strLower pat) then hintsAddNum h fwpats.1 0.6
          else h) h) h
    | none => h) []

/-! ## Package analyzer (`analyzers/package_analyzer.py`) -/

/-- Models `PackageAnalyzer.PYTHON_PACKAGES`, in dict insertion order. -/
def PYTHON_PACKAGES : List (String × Framework) :=
  [("flask", .flask), ("Flask", .flask), ("django", .django),
   ("Django", .django), ("fastapi", .fastapi), ("FastAPI", .fastapi)]

/-- Models `PackageAnalyzer.NODEJS_PACKAGES`. -/
def NODEJS_PACKAGES : List (String × Framework) :=
  [("express", .express), ("@nestjs/core", .nestjs), ("@nestjs/common", .nestjs)]

/-- Models `PackageAnalyzer.JAVA_PACKAGES`. -/
def JAVA_PACKAGES : List (String × Framework) :=
  [("spring-boot-starter", .spring_boot), ("org.springframework.boot", .spring_boot)]

/-- Is `c` matched by the regex class `[\d.]`? -/
def isVerChar (c : Char) : Bool := c.isDigit || c = '.'

/-- Is `c` matched by the regex class `[=><]`? -/
def isCmpChar (c : Char) : Bool := c = '=' || c = '>' || c = '<'

/-- Try to match `pkg[=><]+([\d.]+)` at the head of `hay`
(case-insensitively for `pkg`), returning the captured group. -/
def tryVerAt (pkg hay : List Char) : Option String :=
  if (pkg.map Char.toLower).isPrefixOf (hay.map Char.toLower) then
    let rest := hay.drop pkg.length
    let cmp := rest.takeWhile isCmpChar
    if cmp.isEmpty then none
    else
      let ver := (rest.drop cmp.length).takeWhile isVerChar
      if ver.isEmpty then none else some (String.mk ver)
  else none

/-- Models the version regex search of the package analyzer: the package
name, one or more comparison characters, then the captured group of
digits and dots, case-insensitive, leftmost match. -/
def searchVer (pkg : List Char) : List Char → Option String
  | [] => none
  | c :: t =>
    match tryVerAt pkg (c :: t) with
    | some v => some v
    | none => searchVer pkg t

/-- Version extraction used by `PackageAnalyzer._analyze_python`. -/
def extractVersion (pkg content : String) : Option String :=
  searchVer pkg.toList content.toList

/-- Models `PackageAnalyzer._analyze_python`: scans `requirements.txt`
(each package substring hit `+0.7`, plus a string-keyed version entry
`f"{framework}_version"`), then `Pipfile` (each hit `+0.6`). -/
def analyzePython (files : Files) : Hints :=
  let h : Hints :=
    match fileGet files "requirements.txt" with
    | some content =>
      PYTHON_PACKAGES.foldl (fun h pf =>
        if strContains content pf.1 then
          let h := hintsAddNum h pf.2 0.7
          match extractVersion pf.1 content with
          | some v => dictSet h (.str (pf.2.pyStr ++ "_version")) (.str v)
          | none => h
        else h) []
    | none => []
  match fileGet files "Pipfile" with
  | some content =>
    PYTHON_PACKAGES.foldl (fun h pf =>
      if strContains content pf.1 then hintsAddNum h pf.2 0.6 else h) h
  | none => h

/-- Outcome of `json.loads` on a `package.json`, restricted to what the
analyzer reads: the merged `dependencies` + `devDependencies` mapping.
`none` models a `json.JSONDecodeError`.  The JSON parser itself is a
Python-stdlib collaborator outside the repository; we model it as an
oracle attached to the container. -/
abbrev JsonDepsOracle := String → Option (List (String × String))

/-- Models `PackageAnalyzer._analyze_nodejs`: structured parse (`+0.8` and a
version entry per dependency hit) with a plain text-search fallback
(`+0.6`) when the JSON does not parse. -/
def analyzeNodejs (files : Files) (jsonDeps : JsonDepsOracle) : Hints :=
  match fileGet files "package.json" with
  | none => []
  | some content =>
    match jsonDeps content with
    | some deps =>
      NODEJS_PACKAGES.foldl (fun h pf =>
        match deps.find? (fun d => d.1 = pf.1) with
        | some (_, ver) =>
          dictSet (hintsAddNum h pf.2 0.8) (.str (pf.2.pyStr ++ "_version")) (.str ver)
        | none => h) []
    | none =>
      NODEJS_PACKAGES.foldl (fun h pf =>
        if strContains content pf.1 then hintsAddNum h pf.2 0.6 else h) []

/-- Models `PackageAnalyzer._analyze_java`: `pom.xml` then `build.gradle`,
`+0.7` per substring hit. -/
def analyzeJava (files : Files) : Hints :=
  let h : Hints :=
    match fileGet files "pom.xml" with
    | some content =>
      JAVA_PACKAGES.foldl (fun h pf =>
        if strContains content pf.1 then hintsAddNum h pf.2 0.7 else h) []
    | none => []
  match fileGet files "build.gradle" with
  | some content =>
    JAVA_PACKAGES.foldl (fun h pf =>
      if strContains content pf.1 then hintsAddNum h pf.2 0.7 else h) h
  | none => h

/-- Models `PackageAnalyzer.analyze`: the three ecosystem dicts merged with
`dict.update`. -/
def packageAnalyze (files : Files) (jsonDeps : JsonDepsOracle) : Hints :=
  dictUpdate (dictUpdate (analyzePython files) (analyzeNodejs files jsonDeps))
    (analyzeJava files)

/-! ## HTTP prober (`scanners/http_prober.py`) -/

/-- An HTTP response as the prober reads it. -/
structure HttpResp where
  statusCode : Nat
  headers : List (String × String)

/-- The network: `requests.get` against (port, path); `none` models a
`requests.exceptions.RequestException`. -/
abbrev HttpOracle := Nat → String → Option HttpResp

/-- Models `HTTPProber.HEADER_PATTERNS`.  Note the PHP entry mapping to
`Framework.UNKNOWN`: header evidence can be keyed by `UNKNOWN`. -/
def HEADER_PATTERNS : List (String × List (String × Framework)) :=
  [("Server", [("Werkzeug", .flask), ("gunicorn", .flask), ("uvicorn", .fastapi)]),
   ("X-Powered-By", [("Express", .express), ("PHP", .unknown)])]

/-- Models `HTTPProber.ENDPOINT_PATTERNS`. -/
def ENDPOINT_PATTERNS : List (String × Framework) :=
  [("/admin/", .django), ("/swagger/", .spring_boot),
   ("/docs", .fastapi), ("/actuator/", .spring_boot)]

/-- Models the case-insensitive response-header lookup of the requests library. -/
def headerGet (headers : List (String × String)) (name : String) : String :=
  ((headers.find? (fun p => strLower p.1 = strLower name)).map (·.2)).getD ""

/-- Models `HTTPProber._analyze_headers`: a case-insensitive substring hit sets
(`=`, not `+=`) the hint of that framework to `0.5`. -/
def analyzeHeaders (headers : List (String × String)) : Hints :=
  HEADER_PATTERNS.foldl (fun h hp =>
    let value := headerGet headers hp.1
    hp.2.foldl (fun h pf =>
      if strContains (strLower value) (strLower pf.1) then dictSet h (.fw pf.2) (.num 0.5)
      else h) h) []

/-- Models `HTTPProber._probe_endpoints`: any non-404 response adds `0.4`. -/
def probeEndpoints (get : HttpOracle) (port : Nat) : Hints :=
  ENDPOINT_PATTERNS.foldl (fun h ef =>
    match get port ef.1 with
    | some resp => if resp.statusCode ≠ 404 then hintsAddNum h ef.2 0.4 else h
    | none => h) []

/-- Merges the framework scores of one sub-scan into the outer hints
with `+=` (the inner loops of `probe`). -/
def addAllNum (outer inner : Hints) : Hints :=
  inner.foldl (fun h kv =>
    match kv with
    | (.fw f, .num q) => hintsAddNum h f q
    | _ => h) outer

/-- Models `HTTPProber.probe`: nothing without an IP address; otherwise the
first five exposed ports are probed, unreachable ports are skipped, and
header and endpoint hints are accumulated. -/
def httpProbe (ipAddress : Option String) (ports : List Nat) (get : HttpOracle) : Hints :=
  match ipAddress with
  | none => []
  | some _ =>
    (ports.take 5).foldl (fun h port =>
      match get port "" with
      | none => h
      | some resp =>
        addAllNum (addAllNum h (analyzeHeaders resp.headers)) (probeEndpoints get port)) []

/-! ## The target container at the docker boundary

Everything the detector and the instrumentors read or write through the
docker client (`attrs`, `exec_run`, file writes) is collected in one
record; the function-valued fields are the external oracles. -/

/-- A running target container, as observed through the runtime API. -/
structure Container where
  id : String
  name : String
  /-- Declared KEY=value strings, the Config Env attribute. -/
  envVars : List String
  /-- Port numbers from the NetworkSettings Ports attribute keys. -/
  ports : List Nat
  /-- Filesystem visible to `exec_run` (`cat`, `test -f`, writes). -/
  files : Files
  /-- Captured `ps aux` output; `none` when the exec fails. -/
  psOutput : Option String
  /-- Network address: the NetworkSettings Networks IPAddress attribute. -/
  ipAddress : Option String
  /-- The network, for the HTTP prober. -/
  httpGet : HttpOracle
  /-- Models `json.loads` on `package.json` content (stdlib collaborator). -/
  jsonDeps : JsonDepsOracle
  /-- Exit status of `pip install -r requirements.txt` / `npm install`. -/
  pipInstallOk : Bool
  /-- Output text of the failed install, used in the error message. -/
  pipOutput : String
  /-- Exit status of `pip show opentelemetry-api`. -/
  pipShowOk : Bool

/-! ## Detection aggregator (`framework_detector.py`) -/

/-- The `weights` dict of `FrameworkDetector._combine_results`. -/
def categoryWeights : List (String × ℚ) :=
  [("package", 0.30), ("process", 0.25), ("file", 0.20),
   ("http", 0.15), ("env", 0.07), ("port", 0.03)]

/-- Weight lookup, `weights[name]`. -/
def weightOf (name : String) : ℚ :=
  (((categoryWeights.find? (fun p => p.1 = name)).map (·.2)).getD 0)

/-- The internal `scores` dict: framework-keyed, insertion ordered. -/
abbrev Scores := List (Framework × ℚ)

/-- Models `scores[key] = 0` if absent, then `scores[key] += score * weight`. -/
def scoresAdd (s : Scores) (f : Framework) (q : ℚ) : Scores :=
  if s.any (fun p => p.1 = f) then
    s.map (fun p => if p.1 = f then (p.1, p.2 + q) else p)
  else s ++ [(f, q)]

/-- The version-hints dict: string-keyed. -/
abbrev VersionHints := List (String × HVal)

/-- Models `version_hints[k] = v`. -/
def vhSet (d : VersionHints) (k : String) (v : HVal) : VersionHints :=
  if d.any (fun p => p.1 = k) then
    d.map (fun p => if p.1 = k then (k, v) else p)
  else d ++ [(k, v)]

/-- Models `version_hints.get(k, None)`. -/
def vhGet (d : VersionHints) (k : String) : Option HVal :=
  (d.find? (fun p => p.1 = k)).map (·.2)

/-- One pass of the aggregation loop body over the hints of a single
category: version-suffixed string keys feed `version_hints` (with the
version suffix stripped); framework keys feed `scores`, weighted. -/
def combineCategory (acc : Scores × VersionHints) (hints : Hints) (weight : ℚ) :
    Scores × VersionHints :=
  hints.foldl (fun acc kv =>
    match kv.1 with
    | .str s =>
      if strContains s "_version" then
        (acc.1, vhSet acc.2 (pyReplace s "_version" "") kv.2)
      else acc
    | .fw f =>
      match kv.2 with
      | .num q => (scoresAdd acc.1 f (q * weight), acc.2)
      | .str _ => acc) acc

/-- The merged `scores` and `version_hints` dicts of
`FrameworkDetector._combine_results`, aggregated over the six categories
in the order the source iterates them. -/
def mergedMaps (port process http env file package : Hints) : Scores × VersionHints :=
  let acc := combineCategory ([], []) package (weightOf "package")
  let acc := combineCategory acc process (weightOf "process")
  let acc := combineCategory acc file (weightOf "file")
  let acc := combineCategory acc http (weightOf "http")
  let acc := combineCategory acc env (weightOf "env")
  combineCategory acc port (weightOf "port")

/-- Just the merged score map. -/
def mergedScores (port process http env file package : Hints) : Scores :=
  (mergedMaps port process http env file package).1

/-- One step of the Python max-by-value scan over `scores`: a strictly
greater value replaces the current best, so ties keep the earlier key. -/
def bestStep (acc : Option (Framework × ℚ)) (p : Framework × ℚ) :
    Option (Framework × ℚ) :=
  match acc with
  | none => some p
  | some b => if p.2 > b.2 then some p else some b

/-- Models `max(scores, key=scores.get)`: first key attaining the maximum, in
insertion order. -/
def bestOf (s : Scores) : Option (Framework × ℚ) :=
  s.foldl bestStep none

/-- The `language_map` of `_combine_results` (`dict.get` default
`Language.UNKNOWN`). -/
def languageOf : Framework → Language
  | .flask => .python
  | .django => .python
  | .fastapi => .python
  | .express => .nodejs
  | .nestjs => .nodejs
  | .spring_boot => .java
  | .unknown => .unknown

/-- The quadruple returned by `_combine_results`. -/
structure CombineOutcome where
  framework : Framework
  language : Language
  confidence : ℚ
  version : Option HVal
  deriving DecidableEq, Repr

/-- Models `FrameworkDetector._combine_results`. -/
def combineResults (port process http env file package : Hints) : CombineOutcome :=
  let maps := mergedMaps port process http env file package
  match bestOf maps.1 with
  | none => ⟨.unknown, .unknown, 0, none⟩
  | some (best, score) =>
    ⟨best, languageOf best, min score 1, vhGet maps.2 best.value⟩

/-- Models `FrameworkDetector.detect` on a found container: run all six
scanners, then combine. -/
def detect (c : Container) : CombineOutcome :=
  combineResults
    (portScan c.ports)
    (processScan c.psOutput)
    (httpProbe c.ipAddress c.ports c.httpGet)
    (envAnalyze c.envVars)
    (fileAnalyze c.files)
    (packageAnalyze c.files c.jsonDeps)

/-! ## Instrumentation result types (`instrumentor/base.py`) -/

/-- Models `InstrumentationStatus` enum (`PARTIAL` is modelled as
`incomplete`; it is never constructed by the code paths below). -/
inductive InstrumentationStatus where
  | notInstrumented | instrumented | failed | incomplete
  deriving DecidableEq, Repr

/-- Models `InstrumentationResult` dataclass; `modifications=None` is turned
into `[]` by `__post_init__`, so the field is always a list here. -/
structure InstrumentationResult where
  containerId : String
  containerName : String
  framework : String
  status : InstrumentationStatus
  metricsEndpoint : Option String := none
  traceEndpoint : Option String := none
  logsEndpoint : Option String := none
  errorMessage : Option String := none
  modifications : List String := []
  deriving DecidableEq, Repr

/-! ## OTel config generator (`otel_config.py`) -/

/-- Models `OTelConfigGenerator.generate_requirements_additions`. -/
def requirementsAdditions (framework : String) : List String :=
  ["opentelemetry-api>=1.21.0",
   "opentelemetry-sdk>=1.21.0",
   "opentelemetry-exporter-otlp>=1.21.0"] ++
  (if framework = "flask" then ["opentelemetry-instrumentation-flask>=0.42b0"]
   else if framework = "django" then ["opentelemetry-instrumentation-django>=0.42b0"]
   else if framework = "fastapi" then ["opentelemetry-instrumentation-fastapi>=0.42b0"]
   else [])

/-! ## Python instrumentors
(`python/flask_instrumentor.py`, `python/django_instrumentor.py`,
`python/fastapi_instrumentor.py`)

The generated bootstrap source (`generate_python_otel_init` plus the
framework snippet) is threaded through as an opaque string parameter
`otelCode`: no claim below depends on its text, only on which files the
instrumentors create, patch and delete.  Shell writes
(echo redirection and heredoc writes) append the trailing newline
the shell produces. -/

/-- Models `_update_requirements` (identical in the three Python
instrumentors, modulo the package list): read the manifest (missing ⇒
`""`), strip, append a comment header and the telemetry packages,
write back.  No already-present check is made. -/
def updateRequirements (packages : List String) (files : Files) : Files :=
  let existing := (fileGet files "requirements.txt").getD ""
  let newRequirements :=
    pyStrip existing ++ "\n\n# ObsStack OpenTelemetry\n" ++ joinLines packages
  fileSet files "requirements.txt" (newRequirements ++ "\n")

/-- Index of the first line whose stripped text starts with an import
or from prefix; `0` when there is none. -/
def firstImportIdx (lines : List String) : Nat :=
  (lines.findIdx? (fun l => stripStartsWith l "import " || stripStartsWith l "from ")).getD 0

/-- Models `" " * (len(line) - len(line.lstrip()))`. -/
def indentSpaces (line : String) : String :=
  String.mk (List.replicate (line.toList.length - (pyLstrip line).toList.length) ' ')

/-- Models `FlaskInstrumentor._modify_app_file`: raises when `app.py` is
unreadable; no-op when the `otel_init` marker is already present;
otherwise inserts the bootstrap import before the first import line and
an `instrument_flask_app` call after the `Flask(__name__)` line. -/
def flaskModifyAppFile (files : Files) : Except String Files :=
  match fileGet files "app.py" with
  | none => .error "Could not read app.py"
  | some appCode =>
    if strContains appCode "otel_init" then .ok files
    else
      let lines := pyLines appCode
      let lines := lines.insertIdx (firstImportIdx lines)
        "import otel_init  # ObsStack instrumentation"
      let lines :=
        match lines.findIdx? (fun l => strContains l "Flask(__name__)") with
        | some i =>
          lines.insertIdx (i + 1)
            (indentSpaces (lines.getD i "") ++ "app = otel_init.instrument_flask_app(app)")
        | none => lines
      .ok (fileSet files "app.py" (joinLines lines ++ "\n"))

/-- Models `FlaskInstrumentor.instrument`: the four fallible steps in order,
accumulating the modification log; any failure returns `FAILED` with
the log gathered so far (no rollback of earlier steps). -/
def flaskInstrument (otelCode : String) (c : Container) :
    InstrumentationResult × Container :=
  let files1 := updateRequirements (requirementsAdditions "flask") c.files
  let mods2 := ["Added OpenTelemetry packages to requirements.txt", "Created otel_init.py"]
  let files2 := fileSet files1 "otel_init.py" (otelCode ++ "\n")
  match flaskModifyAppFile files2 with
  | .error e =>
    ({ containerId := c.id, containerName := c.name, framework := "flask",
       status := .failed, errorMessage := some e, modifications := mods2 },
     { c with files := files2 })
  | .ok files3 =>
    let mods3 := mods2 ++ ["Modified app.py to import OpenTelemetry"]
    if c.pipInstallOk then
      ({ containerId := c.id, containerName := c.name, framework := "flask",
         status := .instrumented,
         metricsEndpoint := some "http://localhost:9090/metrics",
         traceEndpoint := some "http://otel-collector:4317",
         modifications := mods3 ++
           ["Installed OpenTelemetry packages", "⚠️  Container restart required"] },
       { c with files := files3 })
    else
      ({ containerId := c.id, containerName := c.name, framework := "flask",
         status := .failed,
         errorMessage := some ("Package installation failed: " ++ c.pipOutput),
         modifications := mods3 },
       { c with files := files3 })

/-- Decides whether a manifest line is removed by the rollback filter of
the Flask instrumentor. -/
def lineHasTelemetryMarker (l : String) : Bool :=
  strContains (strLower l) "opentelemetry" || strContains (strLower l) "obsstack"

/-- Models `FlaskInstrumentor.rollback`: removes `otel_init.py`, then rewrites
`requirements.txt` (when readable) keeping only the lines without an
`opentelemetry` / `obsstack` marker; always reports `True`. -/
def flaskRollback (c : Container) : Bool × Container :=
  let files1 := fileRemove c.files "otel_init.py"
  match fileGet files1 "requirements.txt" with
  | some req =>
    let kept := (pyLines req).filter (fun l => !lineHasTelemetryMarker l)
    (true, { c with files := fileSet files1 "requirements.txt" (joinLines kept ++ "\n") })
  | none => (true, { c with files := files1 })

/-- Models `FlaskInstrumentor.verify_instrumentation`. -/
def flaskVerify (c : Container) : Bool :=
  (fileGet c.files "otel_init.py").isSome && c.pipShowOk

/-- Models `DjangoInstrumentor._modify_manage_py`: silently returns when
`manage.py` is unreadable or already carries the marker; otherwise
inserts the import before the `if __name__` line. -/
def djangoModifyManagePy (files : Files) : Files :=
  match fileGet files "manage.py" with
  | none => files
  | some code =>
    if strContains code "otel_init" then files
    else
      let lines := pyLines code
      let lines :=
        match lines.findIdx? (fun l => strContains l "if __name__") with
        | some i => lines.insertIdx i "    import otel_init  # ObsStack"
        | none => lines
      fileSet files "manage.py" (joinLines lines ++ "\n")

/-- Models `DjangoInstrumentor.instrument`. -/
def djangoInstrument (otelCode : String) (c : Container) :
    InstrumentationResult × Container :=
  let files1 := updateRequirements (requirementsAdditions "django") c.files
  let files2 := fileSet files1 "otel_init.py" (otelCode ++ "\n")
  let files3 := djangoModifyManagePy files2
  let mods3 := ["Added OpenTelemetry packages", "Created otel_init.py", "Modified manage.py"]
  if c.pipInstallOk then
    ({ containerId := c.id, containerName := c.name, framework := "django",
       status := .instrumented,
       metricsEndpoint := some "http://localhost:9090/metrics",
       traceEndpoint := some "http://otel-collector:4317",
       modifications := mods3 ++ ["Installed packages", "⚠️  Container restart required"] },
     { c with files := files3 })
  else
    ({ containerId := c.id, containerName := c.name, framework := "django",
       status := .failed,
       errorMessage := some ("Installation failed: " ++ c.pipOutput),
       modifications := mods3 },
     { c with files := files3 })

/-- Models `DjangoInstrumentor.verify_instrumentation`. -/
def djangoVerify (c : Container) : Bool :=
  (fileGet c.files "otel_init.py").isSome && c.pipShowOk

/-- Models `DjangoInstrumentor.rollback` (and `FastAPIInstrumentor.rollback`):
delete the bootstrap file only. -/
def djangoRollback (c : Container) : Bool × Container :=
  (true, { c with files := fileRemove c.files "otel_init.py" })

/-- Models `FastAPIInstrumentor._modify_main_file`: first readable of
`main.py`, `app.py`; marker no-op; insert the import and the
`instrument_fastapi_app` call after `FastAPI()`.  Silently returns when
neither file is readable. -/
def fastapiModifyMainFile (files : Files) : Files :=
  match (["main.py", "app.py"].find? (fun f => (fileGet files f).isSome)) with
  | none => files
  | some filename =>
    let code := (fileGet files filename).getD ""
    if strContains code "otel_init" then files
    else
      let lines := pyLines code
      let lines := lines.insertIdx (firstImportIdx lines) "import otel_init  # ObsStack"
      let lines :=
        match lines.findIdx? (fun l => strContains l "FastAPI()") with
        | some i =>
          lines.insertIdx (i + 1)
            (indentSpaces (lines.getD i "") ++ "app = otel_init.instrument_fastapi_app(app)")
        | none => lines
      fileSet files filename (joinLines lines ++ "\n")

/-- Models `FastAPIInstrumentor.instrument`. -/
def fastapiInstrument (otelCode : String) (c : Container) :
    InstrumentationResult × Container :=
  let files1 := updateRequirements (requirementsAdditions "fastapi") c.files
  let files2 := fileSet files1 "otel_init.py" (otelCode ++ "\n")
  let files3 := fastapiModifyMainFile files2
  let mods3 := ["Added OpenTelemetry packages", "Created otel_init.py", "Modified main.py"]
  if c.pipInstallOk then
    ({ containerId := c.id, containerName := c.name, framework := "fastapi",
       status := .instrumented,
       metricsEndpoint := some "http://localhost:9090/metrics",
       traceEndpoint := some "http://otel-collector:4317",
       modifications := mods3 ++ ["Installed packages", "⚠️  Container restart required"] },
     { c with files := files3 })
  else
    ({ containerId := c.id, containerName := c.name, framework := "fastapi",
       status := .failed,
       errorMessage := some ("Installation failed: " ++ c.pipOutput),
       modifications := mods3 },
     { c with files := files3 })

/-- Models `FastAPIInstrumentor.verify_instrumentation`. -/
def fastapiVerify (c : Container) : Bool :=
  (fileGet c.files "otel_init.py").isSome

/-! ## Express instrumentor (`nodejs/express_instrumentor.py`)

`_update_package_json` parses the manifest with `json.loads`, merges
the telemetry dependencies into `dependencies` and writes back
`json.dumps(...)`.  The JSON round-trip is a Python-stdlib collaborator;
we model it as an oracle `pkgJsonAdd` mapping the old manifest text to
the rewritten one (`.error msg` models a raised `JSONDecodeError`). -/

/-- Models `ExpressInstrumentor._modify_app_file`: first readable of `app.js`,
`server.js`, `index.js`; marker no-op; otherwise prepend the
bootstrap require preamble.  Silently returns when no file
is readable. -/
def expressModifyAppFile (files : Files) : Files :=
  match (["app.js", "server.js", "index.js"].find? (fun f => (fileGet files f).isSome)) with
  | none => files
  | some filename =>
    let code := (fileGet files filename).getD ""
    if strContains code "otel.js" then files
    else
      fileSet files filename
        ("// ObsStack OpenTelemetry\nrequire('./otel.js');\n\n" ++ code ++ "\n")

/-- Models `ExpressInstrumentor.instrument`. -/
def expressInstrument (otelCode : String) (pkgJsonAdd : String → Except String String)
    (c : Container) : InstrumentationResult × Container :=
  match fileGet c.files "package.json" with
  | none =>
    ({ containerId := c.id, containerName := c.name, framework := "express",
       status := .failed, errorMessage := some "Could not read package.json",
       modifications := [] }, c)
  | some content =>
    match pkgJsonAdd content with
    | .error e =>
      ({ containerId := c.id, containerName := c.name, framework := "express",
         status := .failed, errorMessage := some e, modifications := [] }, c)
    | .ok newContent =>
      let files1 := fileSet c.files "package.json" (newContent ++ "\n")
      let files2 := fileSet files1 "otel.js" (otelCode ++ "\n")
      let files3 := expressModifyAppFile files2
      let mods3 := ["Updated package.json", "Created otel.js", "Modified app entry point"]
      if c.pipInstallOk then
        ({ containerId := c.id, containerName := c.name, framework := "express",
           status := .instrumented,
           metricsEndpoint := some "http://localhost:9090/metrics",
           traceEndpoint := some "http://otel-collector:4317",
           modifications := mods3 ++ ["Installed OpenTelemetry packages", "⚠️  Container restart required"] },
         { c with files := files3 })
      else
        ({ containerId := c.id, containerName := c.name, framework := "express",
           status := .failed,
           errorMessage := some ("npm install failed: " ++ c.pipOutput),
           modifications := mods3 },
         { c with files := files3 })

/-- Models `ExpressInstrumentor.verify_instrumentation`. -/
def expressVerify (c : Container) : Bool :=
  (fileGet c.files "otel.js").isSome

/-- Models `ExpressInstrumentor.rollback`: `rm -f otel.js`, nothing else. -/
def expressRollback (c : Container) : Bool × Container :=
  (true, { c with files := fileRemove c.files "otel.js" })

/-! ## Orchestrator (`orchestrator.py`) -/

/-- Outcome of `docker_client.containers.get(container_id)`:
found, `docker.errors.NotFound`, or some other raised exception. -/
inductive LookupRes where
  | found (c : Container)
  | notFound
  | raises (msg : String)

/-- The per-call environment of an orchestrator operation: the container
lookup, the possibility of `detector.detect` raising (it wraps docker
errors in `ValueError`/`RuntimeError`), the possibility of an exception
escaping the instrumentor call, and the generated-code collaborators. -/
structure OrchEnv where
  lookup : LookupRes
  detectExc : Option String
  instrExc : Option String
  flaskOtelCode : String := ""
  djangoOtelCode : String := ""
  fastapiOtelCode : String := ""
  expressOtelCode : String := ""
  pkgJsonAdd : String → Except String String := fun s => .ok s

/-- The `self.instrumentors` dict: only these four frameworks have a
strategy; `dict.get` yields `None` for the others. -/
def dispatchInstrument (env : OrchEnv) (f : Framework) (c : Container) :
    Option (InstrumentationResult × Container) :=
  match f with
  | .flask => some (flaskInstrument env.flaskOtelCode c)
  | .django => some (djangoInstrument env.djangoOtelCode c)
  | .fastapi => some (fastapiInstrument env.fastapiOtelCode c)
  | .express => some (expressInstrument env.expressOtelCode env.pkgJsonAdd c)
  | _ => none

/-- Models `instrumentor.verify_instrumentation` per framework. -/
def dispatchVerify (f : Framework) (c : Container) : Option Bool :=
  match f with
  | .flask => some (flaskVerify c)
  | .django => some (djangoVerify c)
  | .fastapi => some (fastapiVerify c)
  | .express => some (expressVerify c)
  | _ => none

/-- Models `instrumentor.rollback` per framework. -/
def dispatchRollback (f : Framework) (c : Container) : Option (Bool × Container) :=
  match f with
  | .flask => some (flaskRollback c)
  | .django => some (djangoRollback c)
  | .fastapi => some (djangoRollback c)
  | .express => some (expressRollback c)
  | _ => none

/-- Models `InstrumentationOrchestrator.instrument_container`.  Returns the
result together with the post-state of the target (`none` when the
lookup failed before a container was obtained).  Every exception path
of the source is caught and turned into a `FAILED` result with
`container_name`/`framework` `"unknown"`. -/
def instrumentContainer (env : OrchEnv) (cid : String) :
    InstrumentationResult × Option Container :=
  match env.lookup with
  | .notFound =>
    ({ containerId := cid, containerName := "unknown", framework := "unknown",
       status := .failed,
       errorMessage := some ("Container " ++ cid ++ " not found") }, none)
  | .raises m =>
    ({ containerId := cid, containerName := "unknown", framework := "unknown",
       status := .failed, errorMessage := some m }, none)
  | .found c =>
    match env.detectExc with
    | some m =>
      ({ containerId := cid, containerName := "unknown", framework := "unknown",
         status := .failed, errorMessage := some m }, some c)
    | none =>
      let d := detect c
      if d.framework = .unknown then
        ({ containerId := cid, containerName := c.name, framework := "unknown",
           status := .failed,
           errorMessage := some "Could not detect framework" }, some c)
      else
        match dispatchInstrument env d.framework c with
        | none =>
          ({ containerId := cid, containerName := c.name,
             framework := d.framework.value, status := .failed,
             errorMessage :=
               some ("Instrumentation not yet supported for " ++ d.framework.value) },
           some c)
        | some (res, c') =>
          match env.instrExc with
          | some m =>
            -- an exception escaping the instrumentor call is caught by the
            -- outer handler of the orchestrator; no claim below inspects the
            -- partial target state in this branch
            ({ containerId := cid, containerName := "unknown", framework := "unknown",
               status := .failed, errorMessage := some m }, some c)
          | none => (res, some c')

/-- Models `InstrumentationOrchestrator.verify_instrumentation`: `False` on any
exception or missing strategy, else the verdict of the instrumentor. -/
def verifyInstrumentation (env : OrchEnv) : Bool :=
  match env.lookup with
  | .found c =>
    match env.detectExc with
    | some _ => false
    | none =>
      match dispatchVerify (detect c).framework c with
      | some b => b
      | none => false
  | _ => false

/-- Models `InstrumentationOrchestrator.rollback_instrumentation`. -/
def rollbackInstrumentation (env : OrchEnv) : Bool :=
  match env.lookup with
  | .found c =>
    match env.detectExc with
    | some _ => false
    | none =>
      match dispatchRollback (detect c).framework c with
      | some (b, _) => b
      | none => false
  | _ => false

/-- The batch loop of `instrument_all_command`: one
`instrument_container` call per target, each appended to the result
list (the try/except of the CLI around the call is dead code because
`instrument_container` catches every exception itself). -/
def instrumentAll (targets : List (OrchEnv × String)) : List InstrumentationResult :=
  targets.map (fun t => (instrumentContainer t.1 t.2).1)

/-! ## Concrete fixture targets used by the theorems below -/

/-- A target exposing nothing at all: no environment, no ports, no
files, no process listing, no network. -/
def emptyContainer : Container :=
  { id := "ghost", name := "ghost", envVars := [], ports := [], files := [],
    psOutput := none, ipAddress := none, httpGet := fun _ _ => none,
    jsonDeps := fun _ => none, pipInstallOk := true, pipOutput := "",
    pipShowOk := false }

/-- The Scenario A target: a Flask app-entry variable in the
environment, a manifest listing Flask 2.3.0, a Python app-entry process
and port 5000. -/
def scenarioATarget : Container :=
  { id := "scen-a", name := "scen-a",
    envVars := ["FLASK_APP=app.py"],
    ports := [5000],
    files := [("requirements.txt", "Flask==2.3.0"),
              ("app.py", "from flask import Flask\napp = Flask(__name__)\n")],
    psOutput := some "root  1  0.0  0.1 python app.py",
    ipAddress := none, httpGet := fun _ _ => none, jsonDeps := fun _ => none,
    pipInstallOk := true, pipOutput := "", pipShowOk := true }

/-- An instrumented Flask target about to be rolled back: the injected
bootstrap file is present and the manifest carries one application entry
and one telemetry entry. -/
def rollbackTarget : Container :=
  { id := "rb", name := "rb",
    envVars := [], ports := [],
    files := [("otel_init.py", "x = 1"),
              ("requirements.txt", "Flask==2.3.0\nopentelemetry-api>=1.21.0")],
    psOutput := none, ipAddress := none, httpGet := fun _ _ => none,
    jsonDeps := fun _ => none, pipInstallOk := true, pipOutput := "",
    pipShowOk := true }

/-- A target whose entrypoint already carries the bootstrap marker. -/
def markedTarget : Container :=
  { id := "mk", name := "mk", envVars := [], ports := [],
    files := [("app.py", "import otel_init\n")],
    psOutput := none, ipAddress := none, httpGet := fun _ _ => none,
    jsonDeps := fun _ => none, pipInstallOk := true, pipOutput := "",
    pipShowOk := true }

/-- An orchestrator environment whose detection step raises. -/
def envDetectRaises : OrchEnv :=
  { lookup := .found emptyContainer, detectExc := some "boom", instrExc := none }

/-- An orchestrator environment around the evidence-free target, with
no exceptions anywhere. -/
def envUnknownTarget : OrchEnv :=
  { lookup := .found emptyContainer, detectExc := none, instrExc := none }

/-- An orchestrator environment whose detection step raises with the
given message on the given target. -/
def envDetectRaisesWith (c : Container) (m : String) : OrchEnv :=
  { lookup := .found c, detectExc := some m, instrExc := none }

/-- An orchestrator environment whose container lookup raises NotFound. -/
def envNotFound : OrchEnv :=
  { lookup := .notFound, detectExc := none, instrExc := none }

/-- Did an exception occur before or during detection in an
orchestrator call (container lookup raised, or the detector raised)? -/
def orchExc (env : OrchEnv) : Bool :=
  match env.lookup with
  | .found _ => env.detectExc.isSome
  | _ => true

/-! ## Helper lemmas (shared by several claims) -/

theorem fileGet_nil (q : String) : fileGet [] q = none := rfl

theorem fileGet_cons (r : String × String) (fs : Files) (q : String) :
    fileGet (r :: fs) q = if r.1 = q then some r.2 else fileGet fs q := by
  by_cases h : r.1 = q <;> simp [fileGet, List.find?, h]

theorem fileGet_map_replace (fs : Files) (p v q : String) :
    fileGet (fs.map (fun r => if r.1 = p then (p, v) else r)) q =
      if q = p then (if fs.any (fun r => r.1 = p) then some v else none)
      else fileGet fs q := by
  induction fs with
  | nil => simp [fileGet]
  | cons hd tl ih =>
    simp only [List.map_cons, List.any_cons, fileGet_cons]
    by_cases ha : hd.1 = p
    · by_cases hq : q = p
      · subst hq
        simp [ha, ih]
      · have hpq : p ≠ q := fun h => hq h.symm
        have hhq : hd.1 ≠ q := ha ▸ hpq
        simp [ha, hq, hpq, hhq, ih]
    · by_cases hq : q = p
      · subst hq
        have hdec : (decide (hd.1 = q)) = false := by simpa using ha
        simp only [if_neg ha, ih, eq_self_iff_true, if_true, hdec, Bool.false_or]
      · by_cases hb : hd.1 = q
        · simp [ha, hb, hq]
        · simp [ha, hb, hq, ih]

theorem fileGet_append_single (fs : Files) (p v q : String) :
    fileGet (fs ++ [(p, v)]) q = if (fileGet fs q).isSome then fileGet fs q
      else if p = q then some v else none := by
  induction fs with
  | nil => simp [fileGet_cons, fileGet]
  | cons hd tl ih =>
    simp only [List.cons_append, fileGet_cons]
    by_cases hb : hd.1 = q
    · simp [hb]
    · simp [hb, ih]

theorem any_eq_false_of_fileGet_none {fs : Files} {p : String}
    (h : fileGet fs p = none) : fs.any (fun r => r.1 = p) = false := by
  induction fs with
  | nil => rfl
  | cons hd tl ih =>
    rw [fileGet_cons] at h
    by_cases hb : hd.1 = p
    · simp [hb] at h
    · simp only [hb, if_false] at h
      simp [List.any_cons, hb, ih h]

theorem fileGet_fileSet (fs : Files) (p v q : String) :
    fileGet (fileSet fs p v) q = if q = p then some v else fileGet fs q := by
  unfold fileSet
  by_cases h : fs.any (fun r => r.1 = p)
  · simp only [h, if_true, fileGet_map_replace]
  · rw [if_neg h, fileGet_append_single]
    have hget : fileGet fs p = none := by
      cases hfind : fileGet fs p with
      | none => rfl
      | some w =>
        exfalso
        apply h
        unfold fileGet at hfind
        cases hf : fs.find? (fun r => r.1 = p) with
        | none => rw [hf] at hfind; simp at hfind
        | some r =>
          have hmem := List.find?_some hf
          have hmem2 := List.mem_of_find?_eq_some hf
          exact List.any_eq_true.mpr ⟨r, hmem2, hmem⟩
    by_cases hq : q = p
    · subst hq
      simp [hget]
    · have hpq : p ≠ q := fun hc => hq hc.symm
      cases hfs : fileGet fs q with
      | none => simp [hfs, hq, hpq]
      | some w => simp [hfs, hq, hpq]

theorem fileGet_fileRemove (fs : Files) (p q : String) :
    fileGet (fileRemove fs p) q = if q = p then none else fileGet fs q := by
  induction fs with
  | nil => simp [fileGet, fileRemove]
  | cons hd tl ih =>
    simp only [fileRemove, List.filter_cons, decide_not] at ih ⊢
    by_cases ha : hd.1 = p
    · by_cases hq : q = p
      · subst hq
        simp [ha, ih]
      · have hpq : p ≠ q := fun hc => hq hc.symm
        simp [ha, hq, hpq, ih, fileGet_cons]
    · by_cases hb : hd.1 = q
      · have hq : q ≠ p := fun hqp => ha (hb.trans hqp)
        simp [ha, hb, hq, fileGet_cons]
      · simp [ha, hb, fileGet_cons, ih]

/-- The fold of `bestOf` never forgets a `some` accumulator. -/
theorem bestOf_foldl_some (l : Scores) (b : Framework × ℚ) :
    ∃ r, l.foldl bestStep (some b) = some r := by
  induction l generalizing b with
  | nil => exact ⟨b, rfl⟩
  | cons hd tl ih =>
    simp only [List.foldl_cons, bestStep]
    by_cases h : hd.2 > b.2
    · simpa [h] using ih hd
    · simpa [h] using ih b

/-- States that the Python max over the score dict exists iff the dict is non-empty. -/
theorem bestOf_eq_none_iff (s : Scores) : bestOf s = none ↔ s = [] := by
  cases s with
  | nil => simp [bestOf]
  | cons hd tl =>
    obtain ⟨r, hr⟩ := bestOf_foldl_some tl hd
    simp only [bestOf, List.foldl_cons]
    have hstep : bestStep none hd = some hd := rfl
    rw [hstep, hr]
    simp

/-! ## Claim C4: is the classified framework Unknown exactly when the
merged score map is empty? -/

/-- C4 counterexample: with HTTP header evidence alone coming from the
PHP header pattern, the merged score map is non-empty and yet the
classified framework is Unknown — the specified equivalence fails. -/
theorem c4_counterexample_php_header :
    (combineResults [] [] (analyzeHeaders [("X-Powered-By", "PHP/8.2")]) [] [] []).framework
        = Framework.unknown ∧
      mergedScores [] [] (analyzeHeaders [("X-Powered-By", "PHP/8.2")]) [] [] [] ≠ [] := by
  decide

/-- C4 amended: the classified framework is Unknown iff the merged
score map is empty or its best-scoring key is itself
`Framework.UNKNOWN` (which the PHP header pattern can produce). -/
theorem c4_unknown_iff_empty_or_unknown_best (port process http env file package : Hints) :
    (combineResults port process http env file package).framework = Framework.unknown ↔
      (mergedScores port process http env file package = [] ∨
        ∃ q, bestOf (mergedScores port process http env file package) = some (.unknown, q)) := by
  unfold mergedScores
  cases hb : bestOf (mergedMaps port process http env file package).1 with
  | none =>
    have hnil := (bestOf_eq_none_iff _).mp hb
    constructor
    · intro _
      exact Or.inl hnil
    · intro _
      simp [combineResults, hb]
  | some p =>
    obtain ⟨f, q⟩ := p
    have hframe : (combineResults port process http env file package).framework = f := by
      simp [combineResults, hb]
    rw [hframe]
    constructor
    · intro hf
      subst hf
      exact Or.inr ⟨q, rfl⟩
    · rintro (hnil | ⟨q2, hq2⟩)
      · rw [hnil] at hb
        simp [bestOf] at hb
      · injection hq2 with h
        exact congrArg Prod.fst h

/-! ## Claim C5: the aggregation category weights -/

/-- C5 counterexample: the source weights are package 0.30, process
0.25, file 0.20 — the file weight does not exceed the process weight,
and the package weight is not 0.45. -/
theorem c5_counterexample_weights :
    weightOf "file" = 1/5 ∧ weightOf "process" = 1/4 ∧
      ¬(weightOf "file" > weightOf "process") ∧ ¬(weightOf "package" = 0.45) := by
  decide

/-- C5 amended: the fixed weights are package 0.30, process 0.25,
file 0.20, http 0.15, env 0.07, port 0.03; the process weight exceeds
the file weight, and package and process are the two largest. -/
theorem c5_weights_exact :
    categoryWeights = [("package", 3/10), ("process", 1/4), ("file", 1/5),
        ("http", 3/20), ("env", 7/100), ("port", 3/100)] ∧
      weightOf "file" < weightOf "process" ∧
      weightOf "process" < weightOf "package" ∧
      (categoryWeights.all (fun p => p.1 = "package" || p.2 ≤ weightOf "process")) = true := by
  decide

/-! ## Claim C6: zero evidence yields Unknown / 0.0 / no version -/

/-- C6: when all six scanners return empty evidence, detection returns
Framework Unknown, confidence 0, and no version. -/
theorem c6_empty_evidence_unknown (c : Container)
    (h1 : portScan c.ports = []) (h2 : processScan c.psOutput = [])
    (h3 : httpProbe c.ipAddress c.ports c.httpGet = [])
    (h4 : envAnalyze c.envVars = []) (h5 : fileAnalyze c.files = [])
    (h6 : packageAnalyze c.files c.jsonDeps = []) :
    detect c = ⟨.unknown, .unknown, 0, none⟩ := by
  unfold detect
  rw [h1, h2, h3, h4, h5, h6]
  decide

/-- C6 witness: the empty target produces empty evidence everywhere and
detection returns Unknown, 0, no version. -/
theorem c6_empty_evidence_unknown_witness :
    detect emptyContainer = ⟨.unknown, .unknown, 0, none⟩ :=
  c6_empty_evidence_unknown emptyContainer (by decide) (by decide) (by decide)
    (by decide) (by decide) (by decide)

/-! ## Claim C8: process scanner ordering and scores -/

/-- C8 counterexample: on a listing matched by both the `uvicorn`
pattern and the generic `python` fallback, the scanner reports Flask
with score 0.6 (the generic `python` pattern precedes `uvicorn` in the
table, and `uvicorn` would only score 0.6 anyway, not 0.8). -/
theorem c8_counterexample_uvicorn :
    ppatMatches (.plain "uvicorn") "python -m uvicorn main:app" = true ∧
      ppatMatches (.plain "python") "python -m uvicorn main:app" = true ∧
      processScan (some "python -m uvicorn main:app") = [(.fw .flask, .num 0.6)] := by
  decide

/-- C8 amended: the scanner emits evidence for at most one framework,
the first matching pattern in table order decides the result, the score
is 0.8 exactly when that pattern contains a dot-star (single-word
patterns such as `uvicorn` score 0.6), and a two-part pattern such as
`python.*manage.py` takes precedence over the later generic `python`
fallback (while `uvicorn`, listed after `python`, does not). -/
theorem c8_process_scan_first_match (listing : String) :
    (processScan (some listing)).length ≤ 1 ∧
      (∀ pat fw lang,
        PROCESS_PATTERNS.find? (fun p => ppatMatches p.1 listing) = some (pat, fw, lang) →
        processScan (some listing) =
          [(.fw fw, .num (if pat.hasDotStar then 0.8 else 0.6))]) ∧
      (ppatMatches (.seq "python" "app.py") listing = false →
        ppatMatches (.seq "python" "manage.py") listing = true →
        processScan (some listing) = [(.fw .django, .num 0.8)]) ∧
      processScan (some "uvicorn main:app") = [(.fw .fastapi, .num 0.6)] := by
  refine ⟨?_, ?_, ?_, by decide⟩
  · cases hf : PROCESS_PATTERNS.find? (fun p => ppatMatches p.1 listing) with
    | none => simp [processScan, hf]
    | some t =>
      obtain ⟨pat, fw, lang⟩ := t
      simp [processScan, hf]
  · intro pat fw lang hf
    simp [processScan, hf]
  · intro h1 h2
    have hf : PROCESS_PATTERNS.find? (fun p => ppatMatches p.1 listing) =
        some (.seq "python" "manage.py", .django, .python) := by
      simp [PROCESS_PATTERNS, List.find?, h1, h2]
    simp [processScan, hf, PPat.hasDotStar]

/-- C8 witness: a Django manage-runserver listing is classified Django
with score 0.8 by the amended precedence rule. -/
theorem c8_process_scan_first_match_witness :
    processScan (some "python manage.py runserver") = [(.fw .django, .num 0.8)] :=
  (c8_process_scan_first_match "python manage.py runserver").2.2.1 (by decide) (by decide)

/-! ## Claim C1: Scenario A -/

/-- C1 counterexample: on the Scenario A target (Flask env variable,
manifest listing Flask 2.3.0, Python app-entry process, port 5000) the
detector does pick Flask/Python, but the confidence is 0.567 — not
strictly above 0.7 — and the version is None, because the analyzer
stores the version under the `str(enum)`-derived key while the
aggregator looks it up under the enum value. -/
theorem c1_counterexample_scenarioA :
    fileGet scenarioATarget.files "requirements.txt" = some "Flask==2.3.0" ∧
      scenarioATarget.envVars = ["FLASK_APP=app.py"] ∧
      scenarioATarget.ports = [5000] ∧
      ppatMatches (.seq "python" "app.py") "root  1  0.0  0.1 python app.py" = true ∧
      detect scenarioATarget = ⟨.flask, .python, 567/1000, none⟩ ∧
      ¬((567 : ℚ)/1000 > 0.7) := by
  decide

/-- C1 amended: Scenario A yields Framework Flask and Language Python
with confidence exactly 0.567 (above 0.5 but not above 0.7 under the
source weights) and version None — even though the package analyzer did
extract "2.3.0", it filed it under the key `Framework.FLASK_version`,
which the aggregator never looks up. -/
theorem c1_scenarioA_flask_low_confidence :
    (detect scenarioATarget).framework = .flask ∧
      (detect scenarioATarget).language = .python ∧
      (detect scenarioATarget).confidence = 567/1000 ∧
      (detect scenarioATarget).confidence > 1/2 ∧
      (detect scenarioATarget).version = none ∧
      dictGet (packageAnalyze scenarioATarget.files scenarioATarget.jsonDeps)
        (.str "Framework.FLASK_version") = some (.str "2.3.0") := by
  decide

/-! ## Claim C2: what rollback touches -/

/-- C2 counterexample: rolling back an instrumented Flask target
rewrites the manifest — the telemetry entry present before the rollback
is gone afterwards, so not every manifest entry is left unchanged. -/
theorem c2_counterexample_manifest_rewritten :
    fileGet rollbackTarget.files "requirements.txt" =
        some "Flask==2.3.0\nopentelemetry-api>=1.21.0" ∧
      (pyLines "Flask==2.3.0\nopentelemetry-api>=1.21.0").contains
        "opentelemetry-api>=1.21.0" = true ∧
      fileGet (flaskRollback rollbackTarget).2.files "requirements.txt" =
        some "Flask==2.3.0\n" ∧
      (pyLines "Flask==2.3.0\n").contains "opentelemetry-api>=1.21.0" = false := by
  decide

/-- C2 amended: rollback deletes the injected bootstrap file and
touches nothing else except that the Flask rollback additionally
rewrites `requirements.txt`, dropping exactly the lines carrying an
`opentelemetry`/`obsstack` marker; the Express rollback removes only
`otel.js`. -/
theorem c2_rollback_scope (c : Container) (p : String) (req : String) :
    fileGet (flaskRollback c).2.files "otel_init.py" = none ∧
      (p ≠ "otel_init.py" → p ≠ "requirements.txt" →
        fileGet (flaskRollback c).2.files p = fileGet c.files p) ∧
      ((expressRollback c).2.files = fileRemove c.files "otel.js") ∧
      (fileGet c.files "requirements.txt" = some req →
        fileGet (flaskRollback c).2.files "requirements.txt" =
          some (joinLines ((pyLines req).filter (fun l => !lineHasTelemetryMarker l)) ++ "\n")) := by
  have hrw : fileGet (fileRemove c.files "otel_init.py") "requirements.txt" =
      fileGet c.files "requirements.txt" := by
    rw [fileGet_fileRemove, if_neg (by decide)]
  cases hreq : fileGet c.files "requirements.txt" with
  | none =>
    have hroll : (flaskRollback c).2.files = fileRemove c.files "otel_init.py" := by
      simp only [flaskRollback, hrw, hreq]
    refine ⟨?_, ?_, rfl, ?_⟩
    · rw [hroll, fileGet_fileRemove, if_pos rfl]
    · intro hp1 _
      rw [hroll, fileGet_fileRemove, if_neg hp1]
    · intro hcontr
      exact Option.noConfusion hcontr
  | some r =>
    have hroll : (flaskRollback c).2.files =
        fileSet (fileRemove c.files "otel_init.py") "requirements.txt"
          (joinLines ((pyLines r).filter (fun l => !lineHasTelemetryMarker l)) ++ "\n") := by
      simp only [flaskRollback, hrw, hreq]
    refine ⟨?_, ?_, rfl, ?_⟩
    · rw [hroll, fileGet_fileSet, if_neg (by decide), fileGet_fileRemove, if_pos rfl]
    · intro hp1 hp2
      rw [hroll, fileGet_fileSet, if_neg hp2, fileGet_fileRemove, if_neg hp1]
    · intro hsome
      injection hsome with hr
      rw [hroll, fileGet_fileSet, if_pos rfl, hr]

/-- C2 witness: the amended rollback description evaluated on the
concrete instrumented Flask target. -/
theorem c2_rollback_scope_witness :
    fileGet (flaskRollback rollbackTarget).2.files "otel_init.py" = none ∧
      fileGet (flaskRollback rollbackTarget).2.files "app.py" =
        fileGet rollbackTarget.files "app.py" ∧
      (expressRollback rollbackTarget).2.files = fileRemove rollbackTarget.files "otel.js" ∧
      fileGet (flaskRollback rollbackTarget).2.files "requirements.txt" =
        some (joinLines ((pyLines "Flask==2.3.0\nopentelemetry-api>=1.21.0").filter
          (fun l => !lineHasTelemetryMarker l)) ++ "\n") := by
  obtain ⟨h1, h2, h3, h4⟩ :=
    c2_rollback_scope rollbackTarget "app.py" "Flask==2.3.0\nopentelemetry-api>=1.21.0"
  exact ⟨h1, h2 (by decide) (by decide), h3, h4 (by decide)⟩

/-! ## Claim C3: instrumenting twice -/

/-- C3 counterexample: instrumenting the Scenario A Flask target twice
succeeds both times and leaves the entrypoint patched once, but the
telemetry dependency block is appended to the manifest a second time:
the Flask telemetry package line occurs twice after the second run. -/
theorem c3_counterexample_manifest_duplicated :
    (flaskInstrument "x = 1" scenarioATarget).1.status = .instrumented ∧
      (flaskInstrument "x = 1" (flaskInstrument "x = 1" scenarioATarget).2).1.status
        = .instrumented ∧
      countOccur ((fileGet (flaskInstrument "x = 1" scenarioATarget).2.files
          "requirements.txt").getD "") "opentelemetry-instrumentation-flask" = 1 ∧
      countOccur ((fileGet (flaskInstrument "x = 1"
          (flaskInstrument "x = 1" scenarioATarget).2).2.files
          "requirements.txt").getD "") "opentelemetry-instrumentation-flask" = 2 ∧
      fileGet (flaskInstrument "x = 1" (flaskInstrument "x = 1" scenarioATarget).2).2.files
          "app.py" =
        fileGet (flaskInstrument "x = 1" scenarioATarget).2.files "app.py" := by
  decide

/-- C3 amended: on a target whose entrypoint already carries the
`otel_init` marker (as after a fully successful instrument), a further
instrument still reports success and does not patch the entrypoint
again, but it does append the telemetry dependency block to the
manifest once more — manifest entries are duplicated, not skipped. -/
theorem c3_second_instrument (otelCode : String) (c : Container) (app : String)
    (happ : fileGet c.files "app.py" = some app)
    (hmark : strContains app "otel_init" = true)
    (hpip : c.pipInstallOk = true) :
    (flaskInstrument otelCode c).1.status = .instrumented ∧
      fileGet (flaskInstrument otelCode c).2.files "app.py" = some app ∧
      fileGet (flaskInstrument otelCode c).2.files "requirements.txt" =
        some (pyStrip ((fileGet c.files "requirements.txt").getD "") ++
          "\n\n# ObsStack OpenTelemetry\n" ++
          joinLines (requirementsAdditions "flask") ++ "\n") := by
  have happ2 : fileGet (fileSet (updateRequirements (requirementsAdditions "flask") c.files)
      "otel_init.py" (otelCode ++ "\n")) "app.py" = some app := by
    rw [fileGet_fileSet, if_neg (by decide)]
    unfold updateRequirements
    rw [fileGet_fileSet, if_neg (by decide), happ]
  have hmod : flaskModifyAppFile (fileSet (updateRequirements (requirementsAdditions "flask")
      c.files) "otel_init.py" (otelCode ++ "\n")) =
      .ok (fileSet (updateRequirements (requirementsAdditions "flask") c.files)
        "otel_init.py" (otelCode ++ "\n")) := by
    unfold flaskModifyAppFile
    rw [happ2]
    simp [hmark]
  have hreq : fileGet (fileSet (updateRequirements (requirementsAdditions "flask") c.files)
      "otel_init.py" (otelCode ++ "\n")) "requirements.txt" =
      some (pyStrip ((fileGet c.files "requirements.txt").getD "") ++
        "\n\n# ObsStack OpenTelemetry\n" ++
        joinLines (requirementsAdditions "flask") ++ "\n") := by
    rw [fileGet_fileSet, if_neg (by decide)]
    unfold updateRequirements
    rw [fileGet_fileSet, if_pos rfl]
  simp only [flaskInstrument, hmod, hpip, if_true]
  exact ⟨trivial, happ2, hreq⟩

/-- C3 witness: running the Flask instrumentor on a target whose
entrypoint already carries the marker. -/
theorem c3_second_instrument_witness :
    (flaskInstrument "pass" markedTarget).1.status = .instrumented ∧
      fileGet (flaskInstrument "pass" markedTarget).2.files "app.py" =
        some "import otel_init\n" ∧
      fileGet (flaskInstrument "pass" markedTarget).2.files "requirements.txt" =
        some (pyStrip ((fileGet markedTarget.files "requirements.txt").getD "") ++
          "\n\n# ObsStack OpenTelemetry\n" ++
          joinLines (requirementsAdditions "flask") ++ "\n") :=
  c3_second_instrument "pass" markedTarget "import otel_init\n" (by decide) (by decide) rfl

/-! ## Claim C7: Unknown detection fails fast and mutates nothing -/

/-- C7: when detection succeeds but classifies Unknown, the
orchestrator returns a Failed result with the descriptive message and
an empty modification list, and the target container is unchanged. -/
theorem c7_unknown_detection_fails_cleanly (env : OrchEnv) (cid : String) (c : Container)
    (hl : env.lookup = .found c) (hd : env.detectExc = none)
    (hu : (detect c).framework = .unknown) :
    instrumentContainer env cid =
      ({ containerId := cid, containerName := c.name, framework := "unknown",
         status := .failed, errorMessage := some "Could not detect framework",
         modifications := [] }, some c) := by
  unfold instrumentContainer
  rw [hl, hd]
  simp [hu]

/-- C7 witness: instrumenting the evidence-free target, whose detection
is Unknown, fails with the descriptive message and no mutation. -/
theorem c7_unknown_detection_witness :
    instrumentContainer envUnknownTarget "ghost" =
      ({ containerId := "ghost", containerName := emptyContainer.name,
         framework := "unknown", status := .failed,
         errorMessage := some "Could not detect framework",
         modifications := [] }, some emptyContainer) :=
  c7_unknown_detection_fails_cleanly envUnknownTarget "ghost" emptyContainer rfl rfl
    (by decide)

/-! ## Claim C9: batch failure isolation -/

/-- C9: batch-instrumenting five targets where the third raises during
its instrumentation sequence yields exactly five entries; the third
entry is Failed carrying the raised (non-empty) message, and every
other entry is precisely the outcome of instrumenting that target on
its own — outcomes are independent and, the batch being a total
function, no exception escapes it. -/
theorem c9_batch_failure_isolation (e1 e2 e4 e5 : OrchEnv) (c3 : Container)
    (m cid1 cid2 cid3 cid4 cid5 : String) (hm : m ≠ "") :
    (instrumentAll [(e1, cid1), (e2, cid2), (envDetectRaisesWith c3 m, cid3),
        (e4, cid4), (e5, cid5)]).length = 5 ∧
      (instrumentAll [(e1, cid1), (e2, cid2), (envDetectRaisesWith c3 m, cid3),
          (e4, cid4), (e5, cid5)])[2]? =
        some { containerId := cid3, containerName := "unknown", framework := "unknown",
               status := .failed, errorMessage := some m } ∧
      some m ≠ some "" ∧
      (instrumentAll [(e1, cid1), (e2, cid2), (envDetectRaisesWith c3 m, cid3),
          (e4, cid4), (e5, cid5)])[0]? = some (instrumentContainer e1 cid1).1 ∧
      (instrumentAll [(e1, cid1), (e2, cid2), (envDetectRaisesWith c3 m, cid3),
          (e4, cid4), (e5, cid5)])[1]? = some (instrumentContainer e2 cid2).1 ∧
      (instrumentAll [(e1, cid1), (e2, cid2), (envDetectRaisesWith c3 m, cid3),
          (e4, cid4), (e5, cid5)])[3]? = some (instrumentContainer e4 cid4).1 ∧
      (instrumentAll [(e1, cid1), (e2, cid2), (envDetectRaisesWith c3 m, cid3),
          (e4, cid4), (e5, cid5)])[4]? = some (instrumentContainer e5 cid5).1 := by
  refine ⟨rfl, rfl, ?_, rfl, rfl, rfl, rfl⟩
  simpa using hm

/-- C9 witness: a concrete batch of five targets, the third of which
raises, evaluated end to end. -/
theorem c9_batch_failure_isolation_witness :
    (instrumentAll [(envNotFound, "t1"), (envNotFound, "t2"),
        (envDetectRaisesWith emptyContainer "boom", "t3"),
        (envNotFound, "t4"), (envUnknownTarget, "t5")]).length = 5 ∧
      (instrumentAll [(envNotFound, "t1"), (envNotFound, "t2"),
          (envDetectRaisesWith emptyContainer "boom", "t3"),
          (envNotFound, "t4"), (envUnknownTarget, "t5")])[2]? =
        some { containerId := "t3", containerName := "unknown", framework := "unknown",
               status := .failed, errorMessage := some "boom" } ∧
      some "boom" ≠ some "" ∧
      (instrumentAll [(envNotFound, "t1"), (envNotFound, "t2"),
          (envDetectRaisesWith emptyContainer "boom", "t3"),
          (envNotFound, "t4"), (envUnknownTarget, "t5")])[0]? =
        some (instrumentContainer envNotFound "t1").1 ∧
      (instrumentAll [(envNotFound, "t1"), (envNotFound, "t2"),
          (envDetectRaisesWith emptyContainer "boom", "t3"),
          (envNotFound, "t4"), (envUnknownTarget, "t5")])[1]? =
        some (instrumentContainer envNotFound "t2").1 ∧
      (instrumentAll [(envNotFound, "t1"), (envNotFound, "t2"),
          (envDetectRaisesWith emptyContainer "boom", "t3"),
          (envNotFound, "t4"), (envUnknownTarget, "t5")])[3]? =
        some (instrumentContainer envNotFound "t4").1 ∧
      (instrumentAll [(envNotFound, "t1"), (envNotFound, "t2"),
          (envDetectRaisesWith emptyContainer "boom", "t3"),
          (envNotFound, "t4"), (envUnknownTarget, "t5")])[4]? =
        some (instrumentContainer envUnknownTarget "t5").1 :=
  c9_batch_failure_isolation envNotFound envNotFound envNotFound envUnknownTarget
    emptyContainer "boom" "t1" "t2" "t3" "t4" "t5" (by decide)

/-! ## Claim C10: no exception crosses the orchestrator interface -/

/-- C10: `instrument_container` is total into results, and on every
exception path (lookup raised NotFound or otherwise, the detector
raised, or the instrumentor call raised) it returns status Failed with
a non-None message; on the pre-dispatch exception paths,
`verify_instrumentation` and `rollback_instrumentation` return False
instead of propagating. -/
theorem c10_interface_exception_free (env : OrchEnv) (cid : String)
    (h : orchExc env = true ∨ env.instrExc.isSome = true) :
    (instrumentContainer env cid).1.status = .failed ∧
      (instrumentContainer env cid).1.errorMessage ≠ none ∧
      (orchExc env = true →
        verifyInstrumentation env = false ∧ rollbackInstrumentation env = false) := by
  cases hl : env.lookup with
  | notFound =>
    refine ⟨?_, ?_, fun _ => ⟨?_, ?_⟩⟩ <;>
      simp [instrumentContainer, verifyInstrumentation, rollbackInstrumentation, hl]
  | raises msg =>
    refine ⟨?_, ?_, fun _ => ⟨?_, ?_⟩⟩ <;>
      simp [instrumentContainer, verifyInstrumentation, rollbackInstrumentation, hl]
  | found c =>
    cases hd : env.detectExc with
    | some msg =>
      refine ⟨?_, ?_, fun _ => ⟨?_, ?_⟩⟩ <;>
        simp [instrumentContainer, verifyInstrumentation, rollbackInstrumentation, hl, hd]
    | none =>
      have hoe : orchExc env = false := by
        simp [orchExc, hl, hd]
      have hinstr : env.instrExc.isSome = true := by
        rcases h with h1 | h2
        · rw [hoe] at h1
          cases h1
        · exact h2
      obtain ⟨msg, hmsg⟩ : ∃ w, env.instrExc = some w := by
        cases hi : env.instrExc with
        | none =>
          rw [hi] at hinstr
          simp at hinstr
        | some w => exact ⟨w, rfl⟩
      have hrest : (instrumentContainer env cid).1.status = .failed ∧
          (instrumentContainer env cid).1.errorMessage ≠ none := by
        simp only [instrumentContainer, hl, hd]
        by_cases hu : (detect c).framework = .unknown
        · simp [hu]
        · cases hdisp : dispatchInstrument env (detect c).framework c with
          | none => simp [hu, hdisp]
          | some pr => simp [hu, hdisp, hmsg]
      refine ⟨hrest.1, hrest.2, fun hcontr => ?_⟩
      rw [hoe] at hcontr
      cases hcontr

/-- C10 witness: on a nonexistent container id, instrumenting fails
with a message and verification/rollback report False. -/
theorem c10_interface_exception_free_witness :
    (instrumentContainer envNotFound "ghost").1.status = .failed ∧
      (instrumentContainer envNotFound "ghost").1.errorMessage ≠ none ∧
      (orchExc envNotFound = true →
        verifyInstrumentation envNotFound = false ∧
          rollbackInstrumentation envNotFound = false) :=
  c10_interface_exception_free envNotFound "ghost" (Or.inl rfl)

end ObsStack
